import Mathlib

/-
Verification of the vimvar library (src/lib.rs, src/utils.rs, src/search.rs)
against its natural-language specification.

The Rust code is shallowly embedded: pure fragments become Lean functions,
the process invocation and the JSON parser (external library serde_json) are
passed in as explicit function parameters, and `io::Result` becomes `Except`.
-/

namespace Vimvar

/-- Embedding of enum Cmd (src/lib.rs): the type of vim instance being used. -/
inductive Cmd
  | Neovim
  | Vim
deriving DecidableEq

/-- Embedding of Cmd::as_str (src/lib.rs). Display uses the same text. -/
def Cmd.as_str : Cmd → String
  | .Vim => "vim"
  | .Neovim => "nvim"

/-- Embedding of enum Scope (src/lib.rs): a vim variable scope. -/
inductive Scope
  | Nothing
  | Buffer
  | Window
  | Tabpage
  | Global
  | Local
  | Script
  | FunctionArg
  | Vim
deriving DecidableEq

/-- Embedding of Scope::as_str (src/lib.rs). -/
def Scope.as_str : Scope → String
  | .Nothing => ""
  | .Buffer => "b:"
  | .Window => "w:"
  | .Tabpage => "t:"
  | .Global => "g:"
  | .Local => "l:"
  | .Script => "s:"
  | .FunctionArg => "a:"
  | .Vim => "v:"

/-- Embedding of serde_json's internal number representation N:
a u64 for non-negative integers, an i64 for negative integers, or an f64
(kept abstract as its bit pattern; the code never computes with floats,
it only compares variants, and serde_json's equality on numbers is
variant-strict, so Float is never equal to PosInt). -/
inductive JNum
  | posInt (n : Nat)
  | negInt (n : Int)
  | float (bits : Nat)
deriving DecidableEq

/-- Embedding of serde_json::Value. -/
inductive Value
  | null
  | bool (b : Bool)
  | num (n : JNum)
  | str (s : String)
  | arr (elems : List Value)
  | obj (entries : List (String × Value))

/-- Embedding of the comparison `value == serde_json::json!(0)` in
load_with_config (src/lib.rs line 345): serde_json equality on Value is
structural and on numbers variant-strict, and `json!(0)` is
Number(PosInt(0)), so the comparison holds exactly for that value. -/
def Value.isJsonZero : Value → Bool
  | .num (.posInt 0) => true
  | _ => false

/-- Embedding of the final step of load_with_config (src/lib.rs lines
345-349): with allow_zero false a parsed value equal to the JSON integer 0
is reported as absent (None); every other parsed value is returned. -/
def decodeStep (allow_zero : Bool) (value : Value) : Option Value :=
  if !allow_zero && value.isJsonZero then none else some value

/-- Embedding of the io::ErrorKind values this library constructs or
inspects (src/lib.rs, src/utils.rs). `other` stands for io::ErrorKind::Other
and `permissionDenied` is one example of a spawn-failure kind that is not
NotFound. -/
inductive ErrorKind
  | notFound
  | invalidInput
  | invalidData
  | permissionDenied
  | other
deriving DecidableEq

/-- Embedding of io::Error as the pair of its kind and its message text. -/
structure IoError where
  kind : ErrorKind
  msg : String
deriving DecidableEq

/-- Embedding of Rust str::trim over the character list: drop leading and
trailing whitespace characters. (Lean's Char.isWhitespace covers the ASCII
whitespace used anywhere in this development; Rust trims per Unicode.) -/
def trimLeadChars : List Char → List Char
  | [] => []
  | c :: cs => if c.isWhitespace then trimLeadChars cs else c :: cs

/-- Rust str::trim: trim leading whitespace, then trailing whitespace. -/
def rustTrim (s : String) : String :=
  ⟨((trimLeadChars (trimLeadChars s.data).reverse)).reverse⟩

/-- Embedding of the command construction in load_with_config (src/lib.rs
lines 272-301): the match on self.cmd that formats the full shell command,
or fails with InvalidInput when vim is used without a config path.
The config path is modelled as the string the code interpolates
(config.as_ref().to_string_lossy()), and the emptiness test models
config.as_ref().as_os_str().is_empty(). -/
def buildCommand (cmd : Cmd) (config : String) (scope : Scope)
    (var : String) : Except IoError String :=
  match cmd with
  | .Neovim =>
    if config.isEmpty then
      .ok (cmd.as_str ++ " --headless '+echon json_encode(get(" ++
        scope.as_str ++ ", \"" ++ var ++ "\"))' '+qa!'")
    else
      .ok (cmd.as_str ++ " --headless -u \"" ++ config ++
        "\" '+echon json_encode(get(" ++ scope.as_str ++ ", \"" ++ var ++
        "\"))' '+qa!'")
  | .Vim =>
    if config.isEmpty then
      .error ⟨ErrorKind.invalidInput, "path to vimrc is required for vim"⟩
    else
      .ok (cmd.as_str ++ " -Es -u \"" ++ config ++
        "\" '+redir => m | echon json_encode(get(" ++ scope.as_str ++
        ", \"" ++ var ++ "\")) | redir END | put=m' '+%p' '+qa!'")

/-- Embedding of std::process::ExitStatus: the exit code when the process
exited normally, none when it was terminated by a signal. -/
structure ExitStatus where
  code : Option Int
deriving DecidableEq

/-- ExitStatus::success(): the process exited normally with code 0. -/
def ExitStatus.success (s : ExitStatus) : Bool :=
  s.code == some 0

/-- Embedding of the exit-code text in the error message of load_with_config
(src/lib.rs lines 311-316): the code rendered with ToString, or the
placeholder when the code is unavailable. -/
def exitCodeText : Option Int → String
  | some n => toString n
  | none => "--"

/-- Embedding of the captured std::process::Output: exit status plus both
captured streams (from_utf8_lossy is modelled by working with strings). -/
structure ProcOutput where
  status : ExitStatus
  stdout : String
  stderr : String

/-- Embedding of the exit-status check in load_with_config (src/lib.rs
lines 310-326): error unless the status is success or the code is exactly 1
with cmd vim; the error carries the exit code text and the trimmed stderr. -/
def classifyExit (cmd : Cmd) (st : ExitStatus) (stderrText : String) :
    Except IoError Unit :=
  if !st.success && (!(st.code == some 1) || !(cmd == Cmd.Vim)) then
    .error ⟨ErrorKind.other,
      "[Exit code " ++ exitCodeText st.code ++ "]: " ++ rustTrim stderrText⟩
  else
    .ok ()

/-- Embedding of the stream selection in load_with_config (src/lib.rs lines
330-333): vim's result is on stdout, neovim's on stderr. -/
def selectOutput (cmd : Cmd) (stdoutText stderrText : String) : String :=
  match cmd with
  | .Vim => stdoutText
  | .Neovim => stderrText

/-- Embedding of the tail of load_with_config (src/lib.rs lines 335-349):
fail when the selected output is empty after trimming, otherwise parse the
trimmed text as JSON (the external serde_json parser is a parameter, its
serde error already converted to an io::Error) and apply the zero-is-absent
convention. -/
def postProcess (cmd : Cmd) (allow_zero : Bool)
    (parse : String → Except IoError Value) (output_string : String) :
    Except IoError (Option Value) :=
  if (rustTrim output_string).isEmpty then
    .error ⟨ErrorKind.invalidData,
      "Result from " ++ cmd.as_str ++ " was empty"⟩
  else
    match parse (rustTrim output_string) with
    | .error e => .error e
    | .ok value => .ok (decodeStep allow_zero value)

/-- Embedding of VimVar::load_with_config (src/lib.rs lines 263-350).
The shell invocation (Command::new("sh") ... .output()) and the JSON parser
are passed in as functions, since they are external effects. -/
def load_with_config (cmd : Cmd) (scope : Scope) (var : String)
    (config : String) (allow_zero : Bool)
    (runShell : String → Except IoError ProcOutput)
    (parse : String → Except IoError Value) : Except IoError (Option Value) :=
  match buildCommand cmd config scope var with
  | .error e => .error e
  | .ok full_cmd =>
    match runShell full_cmd with
    | .error e => .error e
    | .ok output =>
      match classifyExit cmd output.status output.stderr with
      | .error e => .error e
      | .ok _ =>
        postProcess cmd allow_zero parse
          (selectOutput cmd output.stdout output.stderr)

/-- Embedding of VimVar::load (src/lib.rs lines 220-229): neovim delegates
with an empty config; vim first locates a vimrc (the result of
utils::find_vimrc is a parameter) and fails with NotFound when none is
found. -/
def load (cmd : Cmd) (scope : Scope) (var : String) (allow_zero : Bool)
    (vimrc : Option String)
    (runShell : String → Except IoError ProcOutput)
    (parse : String → Except IoError Value) : Except IoError (Option Value) :=
  match cmd with
  | .Neovim => load_with_config .Neovim scope var "" allow_zero runShell parse
  | .Vim =>
    match vimrc with
    | none => .error ⟨ErrorKind.notFound, "vimrc not found"⟩
    | some path => load_with_config .Vim scope var path allow_zero runShell parse

/-- Embedding of the shared tail of VimVar::load_typed and
VimVar::load_typed_with_config (src/lib.rs lines 201-208 and 238-249):
`result?.map(|value| serde_json::from_value(value).map_err(Into::into)).transpose()`,
with serde_json::from_value passed in as the conversion function. -/
def typed_transpose {T : Type} (conv : Value → Except IoError T) :
    Except IoError (Option Value) → Except IoError (Option T)
  | .error e => .error e
  | .ok none => .ok none
  | .ok (some v) =>
    match conv v with
    | .error e => .error e
    | .ok t => .ok (some t)

/-- Embedding of VimVar::load_typed (src/lib.rs lines 201-208). -/
def load_typed {T : Type} (conv : Value → Except IoError T) (cmd : Cmd)
    (scope : Scope) (var : String) (allow_zero : Bool)
    (vimrc : Option String)
    (runShell : String → Except IoError ProcOutput)
    (parse : String → Except IoError Value) : Except IoError (Option T) :=
  typed_transpose conv (load cmd scope var allow_zero vimrc runShell parse)

/-- Embedding of VimVar::load_typed_with_config (src/lib.rs lines 238-249). -/
def load_typed_with_config {T : Type} (conv : Value → Except IoError T)
    (cmd : Cmd) (scope : Scope) (var : String) (config : String)
    (allow_zero : Bool)
    (runShell : String → Except IoError ProcOutput)
    (parse : String → Except IoError Value) : Except IoError (Option T) :=
  typed_transpose conv
    (load_with_config cmd scope var config allow_zero runShell parse)

/-- Embedding of the result of Command::spawn in has_on_path
(src/utils.rs): either the child spawned, or the spawn failed with some
io::ErrorKind. -/
inductive SpawnResult
  | ok
  | err (kind : ErrorKind)
deriving DecidableEq

/-- Embedding of the pattern `matches!(result, Err(x) if x.kind() == NotFound)`
from has_on_path (src/utils.rs lines 33-43). -/
def spawnFailedNotFound : SpawnResult → Bool
  | .err k => k == ErrorKind.notFound
  | .ok => false

/-- Embedding of has_on_path (src/utils.rs lines 33-43): true unless the
spawn attempt failed specifically with NotFound. The spawn attempt for a
named binary is a parameter. -/
def has_on_path (spawn : String → SpawnResult) (cmd : String) : Bool :=
  !(spawnFailedNotFound (spawn cmd))

/-- Embedding of find_cmd (src/utils.rs lines 10-21), with
has_nvim_on_path/has_vim_on_path inlined as has_on_path on "nvim"/"vim". -/
def find_cmd (spawn : String → SpawnResult) : Except IoError Cmd :=
  if has_on_path spawn "nvim" then
    .ok Cmd.Neovim
  else if has_on_path spawn "vim" then
    .ok Cmd.Vim
  else
    .error ⟨ErrorKind.notFound, "No vim or neovim instance found in path"⟩

/-- Compile-time platform family selected by cfg!(unix) / cfg!(windows) in
find_vimrc (src/utils.rs and src/search.rs). -/
inductive Platform
  | unixLike
  | windowsLike
  | other
deriving DecidableEq

/-- Embedding of the environment values find_vimrc consults:
shellexpand::env("$XDG_CONFIG_HOME") and shellexpand::env("$VIM") are
Results (none models the lookup error of an unset variable);
shellexpand::tilde("~") always yields a home string. -/
structure VimrcEnv where
  xdg_config_home : Option String
  home : String
  vim_env : Option String

/-- Filesystem paths are modelled as their component lists (the Rust code
builds each PathBuf by collecting string components). -/
def VimrcPath : Type := List String

instance : DecidableEq VimrcPath := by
  unfold VimrcPath
  infer_instance

/-- Candidate list of the unix branch of find_vimrc (src/utils.rs lines
78-112 and src/search.rs lines 76-110, which are identical): each entry is
Some of a path, or none when the environment expansion failed. -/
def unixCandidates (env : VimrcEnv) : List (Option VimrcPath) :=
  [ env.xdg_config_home.map (fun h => [h, "nvim", "init.lua"]),
    env.xdg_config_home.map (fun h => [h, "nvim", "init.vim"]),
    some [env.home, ".config", "nvim", "init.lua"],
    some [env.home, ".config", "nvim", "init.vim"],
    some [env.home, ".vimrc"],
    some [env.home, ".vim", "vimrc"] ]

/-- Candidate list of the windows branch of find_vimrc (src/utils.rs lines
122-164 and src/search.rs lines 120-162, which are identical). -/
def windowsCandidates (env : VimrcEnv) : List (Option VimrcPath) :=
  [ env.xdg_config_home.map (fun h => [h, "nvim", "init.lua"]),
    env.xdg_config_home.map (fun h => [h, "nvim", "init.vim"]),
    some [env.home, "AppData", "Local", "nvim", "init.lua"],
    some [env.home, "AppData", "Local", "nvim", "init.vim"],
    some [env.home, "_vimrc"],
    some [env.home, "vimfiles", "vimrc"],
    env.vim_env.map (fun v => [v, "_vimrc"]) ]

/-- Candidate list of the fallback branch of search.rs's find_vimrc_impl
(src/search.rs lines 169-187). -/
def otherCandidates (env : VimrcEnv) : List (Option VimrcPath) :=
  [ env.xdg_config_home.map (fun h => [h, "nvim", "init.lua"]),
    env.xdg_config_home.map (fun h => [h, "nvim", "init.vim"]) ]

/-- Embedding of the shared find_map over candidates:
`.find_map(|maybe_path| match maybe_path { Some(path) if path.exists() =>
Some(path), _ => None })`, with path.exists() as the predicate fs. -/
def firstExisting (fs : VimrcPath → Bool) (cands : List (Option VimrcPath)) :
    Option VimrcPath :=
  cands.findSome? (fun c =>
    match c with
    | some path => if fs path then some path else none
    | none => none)

/-- Embedding of utils::find_vimrc (src/utils.rs lines 72-173), with the
platform, the environment values and the filesystem existence predicate as
parameters. On a platform that is neither unix nor windows the function
returns None without consulting any candidate. -/
def utils_find_vimrc (p : Platform) (env : VimrcEnv)
    (fs : VimrcPath → Bool) : Option VimrcPath :=
  match p with
  | .unixLike => firstExisting fs (unixCandidates env)
  | .windowsLike => firstExisting fs (windowsCandidates env)
  | .other => none

/-- Embedding of search::find_vimrc_impl (src/search.rs lines 67-194), with
the injected FindVimrcConfig collapsed to the same VimrcEnv values. Its
fallback branch searches the two XDG candidates. -/
def search_find_vimrc_impl (p : Platform) (env : VimrcEnv)
    (fs : VimrcPath → Bool) : Option VimrcPath :=
  match p with
  | .unixLike => firstExisting fs (unixCandidates env)
  | .windowsLike => firstExisting fs (windowsCandidates env)
  | .other => firstExisting fs (otherCandidates env)

/-- Modelled from the spec: the AlternateVariant command-line template of
section 6, instantiated with a binary name, config path, scope prefix and
variable name. Used only to compare the spec's template against the command
the source builds. -/
def specVimCommandTemplate (editor config scopeStr name : String) : String :=
  editor ++ " -Es -i NONE -u \"" ++ config ++
    "\" '+set nonumber' '+redir => m | echon json_encode(get(" ++ scopeStr ++
    ", \"" ++ name ++ "\")) | redir END | put=m' '+%p' '+qa!'"

/-- Concrete environment used in counterexamples: XDG_CONFIG_HOME and VIM
set, home present. -/
def cenv : VimrcEnv :=
  ⟨some "/xdg", "/home/u", some "/vimdir"⟩

/-- Concrete filesystem used in counterexamples: exactly the XDG init.lua
candidate exists. -/
def cfs : VimrcPath → Bool :=
  fun p => p == ["/xdg", "nvim", "init.lua"]

/-- Spawn model where every spawn attempt fails with NotFound. -/
def spawnNone : String → SpawnResult :=
  fun _ => SpawnResult.err ErrorKind.notFound

/-- Spawn model where every spawn attempt fails with a permission error. -/
def spawnPerm : String → SpawnResult :=
  fun _ => SpawnResult.err ErrorKind.permissionDenied

/-- Shell model that always fails; used where the invocation must not be
reached. -/
def shellFail : String → Except IoError ProcOutput :=
  fun _ => .error ⟨ErrorKind.other, "no shell"⟩

/-- Shell model returning a successful exit with the text 0 on stderr. -/
def shellZero : String → Except IoError ProcOutput :=
  fun _ => .ok ⟨⟨some 0⟩, "", "0"⟩

/-- Parser model recognising only the literal null. -/
def parseNull : String → Except IoError Value :=
  fun s =>
    if s == "null" then .ok Value.null
    else .error ⟨ErrorKind.invalidData, "unexpected"⟩

/-- Parser model recognising only the literal 0 as the JSON integer 0. -/
def parseZero : String → Except IoError Value :=
  fun s =>
    if s == "0" then .ok (Value.num (JNum.posInt 0))
    else .error ⟨ErrorKind.invalidData, "unexpected"⟩

/-- Conversion model that always fails, standing for a serde_json::from_value
call on a value of the wrong shape. -/
def convFail : Value → Except IoError Unit :=
  fun _ => .error ⟨ErrorKind.other, "conversion failed"⟩

theorem isJsonZero_iff (v : Value) :
    v.isJsonZero = true ↔ v = Value.num (JNum.posInt 0) := by
  cases v with
  | null => simp [Value.isJsonZero]
  | bool b => simp [Value.isJsonZero]
  | num n =>
    cases n with
    | posInt k =>
      cases k with
      | zero => simp [Value.isJsonZero]
      | succ k => simp [Value.isJsonZero]
    | negInt i => simp [Value.isJsonZero]
    | float b => simp [Value.isJsonZero]
  | str s => simp [Value.isJsonZero]
  | arr es => simp [Value.isJsonZero]
  | obj es => simp [Value.isJsonZero]

/-- C1: the decode step reports absence exactly when allow_zero is false and
the parsed value is the JSON integer 0; with allow_zero true the integer 0 is
returned as a genuine value, and the convention never applies to the JSON
boolean false, the empty JSON string, or any JSON float (such as 0.0). -/
theorem decode_zero_absence (az : Bool) (v : Value) :
    (decodeStep az v = none ↔ (az = false ∧ v = Value.num (JNum.posInt 0))) ∧
    decodeStep true (Value.num (JNum.posInt 0)) =
      some (Value.num (JNum.posInt 0)) ∧
    decodeStep az (Value.bool false) = some (Value.bool false) ∧
    decodeStep az (Value.str "") = some (Value.str "") ∧
    ∀ bits : Nat, decodeStep az (Value.num (JNum.float bits)) =
      some (Value.num (JNum.float bits)) := by
  refine ⟨?_, ?_, ?_, ?_, ?_⟩
  · have key : decodeStep az v = none ↔ (!az && v.isJsonZero) = true := by
      unfold decodeStep
      by_cases h : (!az && v.isJsonZero) = true <;> simp [h]
    rw [key, Bool.and_eq_true, Bool.not_eq_true', isJsonZero_iff]
  · simp [decodeStep, Value.isJsonZero]
  · rcases az with _ | _ <;> simp [decodeStep, Value.isJsonZero]
  · rcases az with _ | _ <;> simp [decodeStep, Value.isJsonZero]
  · intro bits
    rcases az with _ | _ <;> simp [decodeStep, Value.isJsonZero]

theorem decode_zero_absence_witness :
    decodeStep false (Value.num (JNum.posInt 0)) = none :=
  (decode_zero_absence false (Value.num (JNum.posInt 0))).1.mpr ⟨rfl, rfl⟩

/-- C2: the exit-status classifier proceeds exactly on a success exit code
or on exit code 1 under vim; in every other case (other non-zero codes, any
non-zero code under neovim, or an unavailable code) it produces an error
carrying the exit code text (the placeholder for an unavailable code) and
the trimmed captured standard-error text. -/
theorem exit_classification (cmd : Cmd) (st : ExitStatus) (err : String) :
    (classifyExit cmd st err = .ok () ↔
      (st.code = some 0 ∨ (st.code = some 1 ∧ cmd = Cmd.Vim))) ∧
    (classifyExit cmd st err = .ok () ∨
      classifyExit cmd st err =
        .error ⟨ErrorKind.other,
          "[Exit code " ++ exitCodeText st.code ++ "]: " ++ rustTrim err⟩) ∧
    exitCodeText none = "--" := by
  refine ⟨?_, ?_, rfl⟩
  · cases cmd <;>
      by_cases h0 : st.code = some 0 <;>
      by_cases h1 : st.code = some 1 <;>
      simp_all [classifyExit, ExitStatus.success]
  · simp only [classifyExit]
    split
    · right; rfl
    · left; rfl

theorem exit_classification_witness :
    classifyExit Cmd.Vim ⟨some 1⟩ " boom " = .ok () :=
  (exit_classification Cmd.Vim ⟨some 1⟩ " boom ").1.mpr (Or.inr ⟨rfl, rfl⟩)

/-- C4: after the exit-status check, the text whose emptiness is checked and
which is then parsed is the captured stdout for vim and the captured stderr
for neovim. -/
theorem stream_selection (cmd : Cmd) (scope : Scope) (var config : String)
    (az : Bool) (parse : String → Except IoError Value)
    (output : ProcOutput) :
    (∀ o e, selectOutput Cmd.Vim o e = o ∧ selectOutput Cmd.Neovim o e = e) ∧
    load_with_config cmd scope var config az (fun _ => .ok output) parse =
      (match buildCommand cmd config scope var with
       | .error e => .error e
       | .ok _ =>
         match classifyExit cmd output.status output.stderr with
         | .error e => .error e
         | .ok _ =>
           postProcess cmd az parse
             (selectOutput cmd output.stdout output.stderr)) := by
  refine ⟨fun o e => ⟨rfl, rfl⟩, ?_⟩
  unfold load_with_config
  cases h : buildCommand cmd config scope var <;> simp

/-- C6: a result text that is empty or whitespace-only after trimming fails
with the "result was empty" error naming the editor, while the texts null
and 0 proceed to JSON parsing and decoding, with null decoding to a present
JSON null value. -/
theorem empty_result_check (cmd : Cmd) (az : Bool)
    (parse : String → Except IoError Value) (s : String) :
    (rustTrim s = "" →
      postProcess cmd az parse s =
        .error ⟨ErrorKind.invalidData,
          "Result from " ++ cmd.as_str ++ " was empty"⟩) ∧
    (postProcess cmd az parse "null" =
      match parse "null" with
      | .error e => .error e
      | .ok v => .ok (decodeStep az v)) ∧
    (parse "null" = .ok Value.null →
      postProcess cmd az parse "null" = .ok (some Value.null)) ∧
    (postProcess cmd az parse "0" =
      match parse "0" with
      | .error e => .error e
      | .ok v => .ok (decodeStep az v)) := by
  refine ⟨?_, ?_, ?_, ?_⟩
  · intro h
    have he : "".isEmpty = true := rfl
    simp [postProcess, h, he]
  · have h : rustTrim "null" = "null" := rfl
    simp only [postProcess, h]
    rfl
  · intro h
    have ht : rustTrim "null" = "null" := rfl
    simp only [postProcess, ht, h]
    rcases az with _ | _ <;> rfl
  · have h : rustTrim "0" = "0" := rfl
    simp only [postProcess, h]
    rfl

theorem empty_result_check_witness :
    rustTrim "  " = "" ∧
    postProcess Cmd.Vim false parseNull "  " =
      .error ⟨ErrorKind.invalidData, "Result from vim was empty"⟩ ∧
    parseNull "null" = .ok Value.null ∧
    postProcess Cmd.Vim false parseNull "null" = .ok (some Value.null) :=
  ⟨rfl, (empty_result_check Cmd.Vim false parseNull "  ").1 rfl, rfl,
    (empty_result_check Cmd.Vim false parseNull "null").2.2.1 rfl⟩

/-- C3 counterexample: the command the source builds for vim differs from
the spec's template, which additionally carries the flag sequence i NONE and
the nonumber directive; at a concrete config, scope and name the source's
command is the template without those two parts. -/
theorem vim_command_counterexample :
    buildCommand Cmd.Vim "/etc/vimrc" Scope.Global "x" =
      .ok ("vim -Es -u \"/etc/vimrc\" '+redir => m | echon json_encode(get(g:, \"x\")) | redir END | put=m' '+%p' '+qa!'") ∧
    ("vim -Es -u \"/etc/vimrc\" '+redir => m | echon json_encode(get(g:, \"x\")) | redir END | put=m' '+%p' '+qa!'" : String) ≠
      specVimCommandTemplate "vim" "/etc/vimrc" "g:" "x" :=
  ⟨rfl, by decide⟩

/-- C3 amended: for every non-empty configuration path, scope and name, the
constructed vim command line is the batch-mode template without the i NONE
flag and without the nonumber directive. -/
theorem vim_command_actual (config : String) (scope : Scope) (var : String)
    (h : config.isEmpty = false) :
    buildCommand Cmd.Vim config scope var =
      .ok ("vim -Es -u \"" ++ config ++
        "\" '+redir => m | echon json_encode(get(" ++ scope.as_str ++
        ", \"" ++ var ++ "\")) | redir END | put=m' '+%p' '+qa!'") := by
  simp [buildCommand, h, Cmd.as_str]

theorem vim_command_actual_witness :
    ("/etc/vimrc".isEmpty = false) ∧
    buildCommand Cmd.Vim "/etc/vimrc" Scope.Global "x" =
      .ok ("vim -Es -u \"/etc/vimrc\" '+redir => m | echon json_encode(get(g:, \"x\")) | redir END | put=m' '+%p' '+qa!'") :=
  ⟨rfl, vim_command_actual "/etc/vimrc" Scope.Global "x" rfl⟩

/-- C5 counterexample: on the default load path with no vimrc locatable the
operation returns a NotFound error, not an invalid-input error; and the
invalid-input error the builder does produce for an empty config carries the
source's message, not the message text quoted by the claim. -/
theorem vimrc_required_counterexample :
    load Cmd.Vim Scope.Global "x" false none shellFail parseNull =
      .error ⟨ErrorKind.notFound, "vimrc not found"⟩ ∧
    ErrorKind.notFound ≠ ErrorKind.invalidInput ∧
    buildCommand Cmd.Vim "" Scope.Global "x" =
      .error ⟨ErrorKind.invalidInput, "path to vimrc is required for vim"⟩ ∧
    ("path to vimrc is required for vim" : String) ≠
      "path to startup configuration is required" :=
  ⟨rfl, by decide, rfl, by decide⟩

/-- C5 amended: a vim lookup whose supplied configuration path is empty
fails with the invalid-input error "path to vimrc is required for vim"
independently of the shell, so before any child process is spawned; on the
default load path a missing vimrc yields the NotFound error "vimrc not
found" instead; and the neovim builder never fails, so neovim never
produces the invalid-input error. -/
theorem vim_config_required (scope : Scope) (var : String) (az : Bool)
    (runShell : String → Except IoError ProcOutput)
    (parse : String → Except IoError Value) :
    load_with_config Cmd.Vim scope var "" az runShell parse =
      .error ⟨ErrorKind.invalidInput, "path to vimrc is required for vim"⟩ ∧
    load Cmd.Vim scope var az none runShell parse =
      .error ⟨ErrorKind.notFound, "vimrc not found"⟩ ∧
    ∀ config, (buildCommand Cmd.Neovim config scope var).isOk = true := by
  refine ⟨rfl, rfl, fun config => ?_⟩
  unfold buildCommand
  by_cases h : config.isEmpty <;> simp [h, Except.isOk, Except.toBool]

/-- C7 counterexample: a spawn probe that fails with a permission error is
treated as spawnable by has_on_path, and the resolver then selects neovim;
the claim instead says such a failure is treated as not spawnable. -/
theorem probe_counterexample :
    has_on_path spawnPerm "nvim" = true ∧
    find_cmd spawnPerm = .ok Cmd.Neovim :=
  ⟨rfl, rfl⟩

/-- C7 amended: the resolver prefers nvim when its probe reports spawnable,
falls back to vim, and otherwise fails with the not-found error; the probe
reports not spawnable exactly when the spawn attempt failed with NotFound,
so any other spawn failure (for example a permission error) counts as
spawnable. -/
theorem find_cmd_policy (spawn : String → SpawnResult) :
    (find_cmd spawn = .ok Cmd.Neovim ↔ has_on_path spawn "nvim" = true) ∧
    (find_cmd spawn = .ok Cmd.Vim ↔
      (has_on_path spawn "nvim" = false ∧ has_on_path spawn "vim" = true)) ∧
    (find_cmd spawn =
        .error ⟨ErrorKind.notFound, "No vim or neovim instance found in path"⟩ ↔
      (has_on_path spawn "nvim" = false ∧ has_on_path spawn "vim" = false)) ∧
    ∀ c, has_on_path spawn c = false ↔
      spawn c = SpawnResult.err ErrorKind.notFound := by
  refine ⟨?_, ?_, ?_, fun c => ?_⟩
  · by_cases h1 : has_on_path spawn "nvim" <;>
      by_cases h2 : has_on_path spawn "vim" <;> simp [find_cmd, h1, h2]
  · by_cases h1 : has_on_path spawn "nvim" <;>
      by_cases h2 : has_on_path spawn "vim" <;> simp [find_cmd, h1, h2]
  · by_cases h1 : has_on_path spawn "nvim" <;>
      by_cases h2 : has_on_path spawn "vim" <;> simp [find_cmd, h1, h2]
  · cases hs : spawn c with
    | ok => simp [has_on_path, spawnFailedNotFound, hs]
    | err k => simp [has_on_path, spawnFailedNotFound, hs]

theorem find_cmd_policy_witness :
    find_cmd spawnNone =
      .error ⟨ErrorKind.notFound, "No vim or neovim instance found in path"⟩ :=
  (find_cmd_policy spawnNone).2.2.1.mpr ⟨rfl, rfl⟩

/-- C8: on a platform that is neither unix-like nor windows-like,
utils::find_vimrc returns absent without consulting any candidate, even
though the documented XDG candidate list contains an existing path (which
the find_map the other branches use would have returned). -/
theorem find_vimrc_other_bug :
    utils_find_vimrc Platform.other cenv cfs = none ∧
    firstExisting cfs (otherCandidates cenv) =
      some ["/xdg", "nvim", "init.lua"] ∧
    cfs ["/xdg", "nvim", "init.lua"] = true :=
  ⟨rfl, rfl, rfl⟩

/-- C9: utils::find_vimrc and search::find_vimrc_impl agree on the unix-like
and windows-like platform families, but diverge on other platforms, where
the former returns absent unconditionally and the latter searches the two
XDG candidates. -/
theorem find_vimrc_impl_divergence :
    utils_find_vimrc Platform.other cenv cfs ≠
      search_find_vimrc_impl Platform.other cenv cfs ∧
    ∀ env fs,
      utils_find_vimrc Platform.unixLike env fs =
        search_find_vimrc_impl Platform.unixLike env fs ∧
      utils_find_vimrc Platform.windowsLike env fs =
        search_find_vimrc_impl Platform.windowsLike env fs :=
  ⟨by decide, fun env fs => ⟨rfl, rfl⟩⟩

theorem typed_transpose_cases {T : Type} (conv : Value → Except IoError T)
    (r : Except IoError (Option Value)) :
    (typed_transpose conv r = .ok none ↔ r = .ok none) ∧
    ∀ e, typed_transpose conv r = .error e →
      r = .error e ∨ ∃ v, r = .ok (some v) ∧ conv v = .error e := by
  rcases r with e | ov
  · exact ⟨by simp [typed_transpose],
      fun e' h => Or.inl (by simpa [typed_transpose] using h)⟩
  · rcases ov with _ | v
    · exact ⟨by simp [typed_transpose], fun e' h => by simp [typed_transpose] at h⟩
    · cases hc : conv v with
      | error e2 =>
        refine ⟨by simp [typed_transpose, hc], fun e' h => ?_⟩
        simp only [typed_transpose, hc] at h
        have he : e2 = e' := by injection h
        exact Or.inr ⟨v, rfl, by rw [hc, he]⟩
      | ok t =>
        exact ⟨by simp [typed_transpose, hc],
          fun e' h => by simp [typed_transpose, hc] at h⟩

/-- C10: the typed lookups return absence exactly when the untyped lookups
do, without invoking the conversion in that case; a typed-lookup error is
either an untyped-lookup error passed through or a conversion error on a
present value. -/
theorem typed_absence {T : Type} (conv : Value → Except IoError T)
    (cmd : Cmd) (scope : Scope) (var config : String) (az : Bool)
    (vimrc : Option String)
    (runShell : String → Except IoError ProcOutput)
    (parse : String → Except IoError Value) :
    (load_typed_with_config conv cmd scope var config az runShell parse =
        .ok none ↔
      load_with_config cmd scope var config az runShell parse = .ok none) ∧
    (∀ e, load_typed_with_config conv cmd scope var config az runShell parse =
        .error e →
      load_with_config cmd scope var config az runShell parse = .error e ∨
      ∃ v, load_with_config cmd scope var config az runShell parse =
          .ok (some v) ∧ conv v = .error e) ∧
    (load_typed conv cmd scope var az vimrc runShell parse = .ok none ↔
      load cmd scope var az vimrc runShell parse = .ok none) :=
  ⟨(typed_transpose_cases conv _).1, (typed_transpose_cases conv _).2,
    (typed_transpose_cases conv _).1⟩

theorem typed_absence_witness :
    load_typed_with_config convFail Cmd.Neovim Scope.Global "x" "" false
      shellZero parseZero = .ok none :=
  (typed_absence convFail Cmd.Neovim Scope.Global "x" "" false none
    shellZero parseZero).1.mpr rfl

end Vimvar
